import Mathlib

/-!
Shallow embedding of `src/homework.py`, a Telegram homework-status bot.

Python values appearing in deserialized JSON responses are modelled by
`PyVal`; Python exceptions by `PyErr` (kind plus payload).  The functions
`check_response`, `parse_status`, `get_api_answer` and `send_message` are
translated from the source; the polling loop of `main` is modelled by
`iterate` and `runFrom`, driven by a finite script of environment
behaviours (`IterEnv`), one per iteration.
-/

namespace HomeworkBot

/-- Python values that occur in a deserialized JSON reply.  Object keys
are strings, as in JSON; floats never influence any behaviour of the
program and are omitted. -/
inductive PyVal where
  | str (s : String)
  | int (n : Int)
  | bool (b : Bool)
  | none
  | list (xs : List PyVal)
  | dict (entries : List (String × PyVal))

mutual

/-- Python equality `==` between values of the program (every comparison
the program makes is against a string, where this agrees with Python
exactly). -/
def pyBeq : PyVal → PyVal → Bool
  | .str a, .str b => a == b
  | .int a, .int b => a == b
  | .bool a, .bool b => a == b
  | .none, .none => true
  | .list xs, .list ys => pyBeqList xs ys
  | .dict es, .dict fs => pyBeqEntries es fs
  | _, _ => false

/-- Elementwise equality of Python lists. -/
def pyBeqList : List PyVal → List PyVal → Bool
  | [], [] => true
  | x :: xs, y :: ys => pyBeq x y && pyBeqList xs ys
  | _, _ => false

/-- Entrywise equality of Python dicts (deserialized JSON objects
compare equal exactly when their entry lists match). -/
def pyBeqEntries : List (String × PyVal) → List (String × PyVal) → Bool
  | [], [] => true
  | (k, v) :: es, (l, w) :: fs => k == l && pyBeq v w && pyBeqEntries es fs
  | _, _ => false

end

instance : BEq PyVal := ⟨pyBeq⟩

/-- Association-list lookup for a Python dict with string keys (keys of a
deserialized JSON object are unique, so first match suffices). -/
def dictLookup {α : Type} : List (String × α) → String → Option α
  | [], _ => Option.none
  | (k', v) :: rest, k => if k' = k then Option.some v else dictLookup rest k

/-- Name of a Python value's type, as `type(v).__name__`. -/
def pyTypeName : PyVal → String
  | .str _ => "str"
  | .int _ => "int"
  | .bool _ => "bool"
  | .none => "NoneType"
  | .list _ => "list"
  | .dict _ => "dict"

/-- Hashability of a Python value: lists and dicts are unhashable, so
using them as a dict key raises `TypeError`. -/
def pyHashable : PyVal → Bool
  | .list _ => false
  | .dict _ => false
  | _ => true

mutual

/-- Python `repr` of a value (an apostrophe is written `\x27`, a brace
`\x7b`/`\x7d`). -/
def pyRepr : PyVal → String
  | .str s => "\x27" ++ s ++ "\x27"
  | .int n => toString n
  | .bool b => if b then "True" else "False"
  | .none => "None"
  | .list xs => "[" ++ String.intercalate ", " (pyReprList xs) ++ "]"
  | .dict es => "\x7b" ++ String.intercalate ", " (pyReprEntries es) ++ "\x7d"

/-- Renders the elements of a Python list for `repr`. -/
def pyReprList : List PyVal → List String
  | [] => []
  | x :: rest => pyRepr x :: pyReprList rest

/-- Renders the entries of a Python dict for `repr`. -/
def pyReprEntries : List (String × PyVal) → List String
  | [] => []
  | (k, v) :: rest => ("\x27" ++ k ++ "\x27: " ++ pyRepr v) :: pyReprEntries rest

end

/-- Python `str` of a value, as interpolated by an f-string: identical to
`repr` except on strings, which render without quotes. -/
def pyStr : PyVal → String
  | .str s => s
  | v => pyRepr v

/-- Python exceptions raised by the program: kind plus payload.
`typeError`, `keyError`, `indexError`, `attributeError` and `valueError`
are builtins (`keyError` carries the key object, since `str` of a
`KeyError` is the `repr` of its argument).  Modelled from the spec: the
constructors `apiRequestError`, `sendMessageError` and
`homeWorkStatusUnknown` stand for the classes of the repository's
`exceptions` module, which is not under `src/`; per the spec's error
taxonomy they are typed errors carrying a message, with no equality of
their own (so, as for every exception class here, Python `==` on them is
object identity). -/
inductive PyErr where
  | typeError (msg : String)
  | keyError (key : PyVal)
  | indexError (msg : String)
  | attributeError (msg : String)
  | valueError (msg : String)
  | apiRequestError (msg : String)
  | sendMessageError (msg : String)
  | homeWorkStatusUnknown (msg : String)

/-- Rendering of an exception by Python's `str`, as interpolated into the
failure-report f-string: the message for single-argument exceptions, the
`repr` of the key for `KeyError`. -/
def errStr : PyErr → String
  | .typeError m => m
  | .keyError k => pyRepr k
  | .indexError m => m
  | .attributeError m => m
  | .valueError m => m
  | .apiRequestError m => m
  | .sendMessageError m => m
  | .homeWorkStatusUnknown m => m

/-- Constant `RETRY_PERIOD`: seconds slept between polls. -/
def RETRY_PERIOD : Nat := 600

/-- Constant `ENDPOINT`: the polled URL. -/
def ENDPOINT : String := "https://practicum.yandex.ru/api/user_api/homework_statuses/"

/-- Constant `TIME_INTERVAL`, computed in the source as
days * hours * minutes * seconds. -/
def TIME_INTERVAL : Int := 30 * 24 * 60 * 60

/-- Dictionary `HOMEWORK_VERDICTS`, in source order. -/
def HOMEWORK_VERDICTS : List (String × String) :=
  [("approved", "Работа проверена: ревьюеру всё понравилось. Ура!"),
   ("reviewing", "Работа взята на проверку ревьюером."),
   ("rejected", "Работа проверена: у ревьюера есть замечания.")]

/-- Test `v in HOMEWORK_VERDICTS` on a Python value: hashes the value
(raising `TypeError` for unhashable lists and dicts) and compares it with
the dict's string keys; on success returns the matched key, so `isSome`
of the result is the membership truth value. -/
def verdictsContainsKey (v : PyVal) : Except PyErr (Option String) :=
  if pyHashable v then
    match v with
    | .str s =>
      match dictLookup HOMEWORK_VERDICTS s with
      | Option.some _ => .ok (Option.some s)
      | Option.none => .ok Option.none
    | _ => .ok Option.none
  else
    .error (.typeError ("unhashable type: \x27" ++ pyTypeName v ++ "\x27"))

/-- Subscript `HOMEWORK_VERDICTS[v]`: `TypeError` for an unhashable key,
`KeyError` carrying the key when it is absent. -/
def verdictsGetItem (v : PyVal) : Except PyErr String :=
  if pyHashable v then
    match v with
    | .str s =>
      match dictLookup HOMEWORK_VERDICTS s with
      | Option.some t => .ok t
      | Option.none => .error (.keyError (.str s))
    | _ => .error (.keyError v)
  else
    .error (.typeError ("unhashable type: \x27" ++ pyTypeName v ++ "\x27"))

/-- Test whether a value is a Python dict (`isinstance(v, dict)`). -/
def PyVal.isDict : PyVal → Bool
  | .dict _ => true
  | _ => false

/-- Test whether a value is a Python list (`isinstance(v, list)`). -/
def PyVal.isList : PyVal → Bool
  | .list _ => true
  | _ => false

/-- Membership `k in v` of a string in a dict; the source only evaluates
it after an `isinstance(v, dict)` guard, so other cases return `false`
without modelling the generic `in` protocol. -/
def hasKey (v : PyVal) (k : String) : Bool :=
  match v with
  | .dict es => (dictLookup es k).isSome
  | _ => false

/-- Subscript `v[k]` with a string key: the value or `KeyError` on a
dict, `TypeError` on values that do not take string subscripts. -/
def pyGetItemStr (v : PyVal) (k : String) : Except PyErr PyVal :=
  match v with
  | .dict es =>
    match dictLookup es k with
    | Option.some x => .ok x
    | Option.none => .error (.keyError (.str k))
  | .list _ => .error (.typeError "list indices must be integers or slices, not str")
  | .str _ => .error (.typeError "string indices must be integers")
  | v' => .error (.typeError ("\x27" ++ pyTypeName v' ++ "\x27 object is not subscriptable"))

/-- Subscript `v[0]`. -/
def pyIndexZero (v : PyVal) : Except PyErr PyVal :=
  match v with
  | .list [] => .error (.indexError "list index out of range")
  | .list (x :: _) => .ok x
  | .str s =>
    match s.data with
    | [] => .error (.indexError "string index out of range")
    | c :: _ => .ok (.str (String.mk [c]))
  | .dict _ => .error (.keyError (.int 0))
  | v' => .error (.typeError ("\x27" ++ pyTypeName v' ++ "\x27 object is not subscriptable"))

/-- Method call `v.get(k)`: the value at the key, or `None` when absent,
on a dict; `AttributeError` on anything else. -/
def pyGet (v : PyVal) (k : String) : Except PyErr PyVal :=
  match v with
  | .dict es =>
    match dictLookup es k with
    | Option.some x => .ok x
    | Option.none => .ok .none
  | v' =>
    .error (.attributeError
      ("\x27" ++ pyTypeName v' ++ "\x27 object has no attribute \x27get\x27"))

/-- Membership `k in v` of a string literal under Python's generic `in`
protocol: key lookup on dicts, element search on lists, substring search
on strings, `TypeError` otherwise. -/
def pyContainsStr (v : PyVal) (k : String) : Except PyErr Bool :=
  match v with
  | .dict es => .ok (dictLookup es k).isSome
  | .list xs => .ok (xs.contains (.str k))
  | .str s => .ok (decide (List.IsInfix k.data s.data))
  | v' =>
    .error (.typeError
      ("argument of type \x27" ++ pyTypeName v' ++ "\x27 is not iterable"))

/-- Function `check_response` from the source (lines 91-105): validates
the API response against the documentation and returns the status string
of the first homework entry. -/
def check_response (response : PyVal) : Except PyErr String :=
  -- line 97: if not isinstance(response, dict) or "homeworks" not in response
  if !(response.isDict && hasKey response "homeworks") then
    .error (.typeError "Словарь в ответе API c домашними работами не найден")
  else
    -- line 99: homeworks = response["homeworks"]
    match pyGetItemStr response "homeworks" with
    | .error e => .error e
    | .ok homeworks =>
      -- line 100: if not isinstance(homeworks, list)
      if !homeworks.isList then
        .error (.typeError "По ключу \x27homeworks\x27 не возвращается список")
      else
        -- line 102: status = response["homeworks"][0].get("status")
        match pyIndexZero homeworks with
        | .error e => .error e
        | .ok first =>
          match pyGet first "status" with
          | .error e => .error e
          | .ok status =>
            -- line 103: if status not in HOMEWORK_VERDICTS
            match verdictsContainsKey status with
            | .error e => .error e
            | .ok (Option.some s) =>
              -- line 105 re-reads homeworks[0]["status"], which the
              -- membership test has just established is the string s
              .ok s
            | .ok Option.none =>
              .error (.typeError ("Ошибка: недокументированный статус: " ++ pyStr status))

/-- Function `parse_status` from the source (lines 108-127): formats the
notification text for one homework record. -/
def parse_status (homework : PyVal) : Except PyErr String :=
  -- line 116: if "homework_name" not in homework
  match pyContainsStr homework "homework_name" with
  | .error e => .error e
  | .ok mem =>
    if !mem then
      .error (.keyError (.str "В ответе API отсутствует ключ \x27homework_name\x27"))
    else
      -- line 118: status = homework["status"]
      match pyGetItemStr homework "status" with
      | .error e => .error e
      | .ok status =>
        -- line 119: if status == "unknown"
        if status == .str "unknown" then
          .error (.homeWorkStatusUnknown "Статус домашней работы не задокументирован")
        else
          -- line 123: verdict = HOMEWORK_VERDICTS[status]
          match verdictsGetItem status with
          | .error e => .error e
          | .ok verdict =>
            -- line 124: if status not in HOMEWORK_VERDICTS
            match verdictsContainsKey status with
            | .error e => .error e
            | .ok mem2 =>
              if mem2.isNone then
                .error (.valueError ("Неидентифицированный статус: " ++ pyStr status))
              else
                -- line 126: homework_name = homework["homework_name"]
                match pyGetItemStr homework "homework_name" with
                | .error e => .error e
                | .ok homework_name =>
                  .ok ("Изменился статус проверки работы \"" ++
                    pyStr homework_name ++ "\". " ++ verdict)

/-- Outcome of the one HTTP request a call of `get_api_answer` issues:
a reply with some status code and (for 200) an already-deserialized JSON
body, or a transport-level failure (`requests.RequestException`). -/
inductive HttpResult where
  | reply (statusCode : Nat) (body : PyVal)
  | transportFailure (msg : String)

/-- Function `get_api_answer` from the source (lines 67-88): a non-200
reply raises `ApiRequestError` naming the endpoint (this exception is
not a `requests.RequestException`, so the surrounding handler lets it
propagate), a transport failure raises `ApiRequestError` naming the
cause, and a 200 reply returns the deserialized body. -/
def get_api_answer (r : HttpResult) : Except PyErr PyVal :=
  match r with
  | .reply statusCode body =>
    if statusCode ≠ 200 then
      .error (.apiRequestError ("Эндпоинт недоступен: " ++ ENDPOINT))
    else
      .ok body
  | .transportFailure m => .error (.apiRequestError ("Ошибка запроса: " ++ m))

/-- Function `send_message` from the source (lines 50-64): the Telegram
client either delivers the text or raises `telegram.error.TelegramError`
(the parameter, carried by the environment), which is wrapped into
`SendMessageError`. -/
def send_message (telegramFailure : Option String) (_message : String) :
    Except PyErr Unit :=
  match telegramFailure with
  | Option.none => .ok ()
  | Option.some e => .error (.sendMessageError ("Ошибка отправки: " ++ e))

/-- Observable actions of a run of the polling loop, in order:
`requested ts` is the HTTP request of `get_api_answer` with query
parameter `from_date = ts`, `sent text` is a successfully delivered
Telegram message, `logNoChange` is the debug log of the unchanged-status
branch, and `slept` is the `time.sleep(RETRY_PERIOD)` of the `finally`
clause. -/
inductive Event where
  | requested (timestamp : Int)
  | sent (text : String)
  | logNoChange
  | slept

/-- Environment behaviour for one loop iteration: the result of the
iteration's HTTP request, and for each of the (at most two)
`send_message` calls the iteration can make — one in the `try` body, one
in the `except` clause — whether the Telegram client fails (`some m` is
a `TelegramError` with text `m`). -/
structure IterEnv where
  http : HttpResult
  tgTry : Option String
  tgExc : Option String

/-- Mutable state of the loop in `main`: the timestamp cursor and the
variables `status` and `err_message`.  `err_message` starts as the
string `""` (modelled `Option.none`) and afterwards holds the exception
object caught by some earlier iteration; the object is tagged with the
index of the iteration that caught it, which identifies it uniquely. -/
structure LoopState where
  timestamp : Int
  status : String
  err_message : Option (Nat × PyErr)

/-- Comparison `err_message != error` from line 157.  The stored value
is either the initial string `""`, never equal to an exception object,
or an exception object caught by an earlier iteration; no exception
class involved defines `__eq__`, so `!=` falls back to object identity,
i.e. inequality of the tags. -/
def errNe (em : Option (Nat × PyErr)) (cur : Nat × PyErr) : Bool :=
  match em with
  | Option.none => true
  | Option.some (i, _) => i != cur.1

/-- Expression `parse_status(response["homeworks"][0])` from line 154. -/
def parseFirst (response : PyVal) : Except PyErr String :=
  match pyGetItemStr response "homeworks" with
  | .error e => .error e
  | .ok homeworks =>
    match pyIndexZero homeworks with
    | .error e => .error e
    | .ok first => parse_status first

/-- Body of the `try` block of one loop iteration (lines 148-155):
the events emitted, the updated state, and the exception reaching the
`except` clause, if any.  Note line 153 updates `status` before
`parse_status` and `send_message` run, so the update survives even when
one of them raises. -/
def tryBlock (env : IterEnv) (st : LoopState) :
    List Event × LoopState × Option PyErr :=
  match get_api_answer env.http with
  | .error e => ([.requested st.timestamp], st, Option.some e)
  | .ok response =>
    match check_response response with
    | .error e => ([.requested st.timestamp], st, Option.some e)
    | .ok get_status =>
      if st.status == get_status then
        ([.requested st.timestamp, .logNoChange], st, Option.none)
      else
        let st1 := { st with status := get_status }
        match parseFirst response with
        | .error e => ([.requested st.timestamp], st1, Option.some e)
        | .ok text =>
          match send_message env.tgTry text with
          | .error e => ([.requested st.timestamp], st1, Option.some e)
          | .ok _ => ([.requested st.timestamp, .sent text], st1, Option.none)

/-- One full iteration of the `while` loop: the `try` body, the `except`
clause (lines 156-160) and the `finally` sleep (line 162).  `iterIdx`
tags an exception caught here with the iteration that created the
object.  The third component is an exception escaping the iteration —
a delivery failure raised inside the `except` clause — which the
`finally` clause lets pass after sleeping. -/
def iterate (iterIdx : Nat) (env : IterEnv) (st : LoopState) :
    List Event × LoopState × Option PyErr :=
  match tryBlock env st with
  | (evs, st1, Option.none) => (evs ++ [.slept], st1, Option.none)
  | (evs, st1, Option.some e) =>
    if errNe st1.err_message (iterIdx, e) then
      let st2 := { st1 with err_message := Option.some (iterIdx, e) }
      let message := "В работе программы обнаружен сбой: " ++ errStr e
      match send_message env.tgExc message with
      | .ok _ => (evs ++ [.sent message, .slept], st2, Option.none)
      | .error e2 => (evs ++ [.slept], st2, Option.some e2)
    else
      (evs ++ [.slept], st1, Option.none)

/-- Runs the loop over a finite script of iteration environments,
starting at iteration index `iterIdx`.  An exception escaping an
iteration stops the run: the `while` loop has no enclosing handler, so
such an exception terminates `main` and with it the process. -/
def runFrom (iterIdx : Nat) (st : LoopState) :
    List IterEnv → List Event × LoopState × Option PyErr
  | [] => ([], st, Option.none)
  | env :: rest =>
    match iterate iterIdx env st with
    | (evs, st1, Option.none) =>
      let (evs', st2, esc) := runFrom (iterIdx + 1) st1 rest
      (evs ++ evs', st2, esc)
    | (evs, st1, Option.some e) => (evs, st1, Option.some e)

/-- Initial loop state built in `main` (lines 143-145): the cursor is
the process-start time minus `TIME_INTERVAL`; `status` and `err_message`
are the empty string. -/
def initState (now : Int) : LoopState :=
  { timestamp := now - TIME_INTERVAL, status := "", err_message := Option.none }

/-- The polling loop of `main`, observed for the first `envs.length`
iterations. -/
def mainLoop (now : Int) (envs : List IterEnv) :
    List Event × LoopState × Option PyErr :=
  runFrom 0 (initState now) envs

/-- Number of successfully delivered notifications in a trace. -/
def countSent : List Event → Nat
  | [] => 0
  | .sent _ :: rest => countSent rest + 1
  | _ :: rest => countSent rest

/-- Timestamps carried by the HTTP requests of a trace. -/
def requestedTimestamps : List Event → List Int
  | [] => []
  | .requested ts :: rest => ts :: requestedTimestamps rest
  | _ :: rest => requestedTimestamps rest

@[simp]
theorem beq_def (a b : PyVal) : (a == b) = pyBeq a b := rfl

@[simp]
theorem pyBeq_str_str (a b : String) :
    pyBeq (PyVal.str a) (PyVal.str b) = (a == b) := rfl

theorem isDict_iff (v : PyVal) :
    v.isDict = true ↔ ∃ es, v = PyVal.dict es := by
  cases v <;> simp [PyVal.isDict]

theorem isList_iff (v : PyVal) :
    v.isList = true ↔ ∃ xs, v = PyVal.list xs := by
  cases v <;> simp [PyVal.isList]

theorem pyGetItemStr_ok {v : PyVal} {k : String} {x : PyVal}
    (h : pyGetItemStr v k = .ok x) :
    ∃ es, v = PyVal.dict es ∧ dictLookup es k = Option.some x := by
  cases v <;> simp only [pyGetItemStr] at h
  case dict es =>
    cases hl : dictLookup es k <;> simp [hl] at h
    exact ⟨es, rfl, by rw [hl, h]⟩
  all_goals cases h

theorem pyGetItemStr_dict {es : List (String × PyVal)} {k : String} {x : PyVal}
    (hk : dictLookup es k = Option.some x) :
    pyGetItemStr (PyVal.dict es) k = .ok x := by
  simp [pyGetItemStr, hk]

theorem pyIndexZero_list_ok {xs : List PyVal} {x : PyVal}
    (h : pyIndexZero (PyVal.list xs) = .ok x) :
    ∃ rest, xs = x :: rest := by
  cases xs with
  | nil => cases h
  | cons y ys => simp only [pyIndexZero, Except.ok.injEq] at h; exact ⟨ys, by rw [h]⟩

theorem pyGet_ok {v : PyVal} {k : String} {x : PyVal}
    (h : pyGet v k = .ok x) :
    ∃ es, v = PyVal.dict es ∧
      (dictLookup es k = Option.some x ∨
        (dictLookup es k = Option.none ∧ x = PyVal.none)) := by
  cases v <;> simp only [pyGet] at h
  case dict es =>
    refine ⟨es, rfl, ?_⟩
    cases hl : dictLookup es k <;> simp [hl] at h
    · exact Or.inr ⟨rfl, h.symm⟩
    · exact Or.inl (by rw [h])
  all_goals cases h

theorem verdictsContainsKey_ok_some {v : PyVal} {s : String}
    (h : verdictsContainsKey v = .ok (Option.some s)) :
    v = PyVal.str s ∧ ∃ t, dictLookup HOMEWORK_VERDICTS s = Option.some t := by
  unfold verdictsContainsKey at h
  cases v <;> simp [pyHashable] at h
  case str s' =>
    cases hl : dictLookup HOMEWORK_VERDICTS s' <;> simp [hl] at h
    exact ⟨by rw [h], h ▸ ⟨_, hl⟩⟩

theorem verdictsContainsKey_str {s : String} :
    verdictsContainsKey (PyVal.str s) =
      .ok ((dictLookup HOMEWORK_VERDICTS s).map fun _ => s) := by
  unfold verdictsContainsKey
  cases hl : dictLookup HOMEWORK_VERDICTS s <;> simp [pyHashable, hl]

theorem verdictsGetItem_ok {v : PyVal} {t : String}
    (h : verdictsGetItem v = .ok t) :
    ∃ s, v = PyVal.str s ∧ dictLookup HOMEWORK_VERDICTS s = Option.some t := by
  unfold verdictsGetItem at h
  cases v <;> simp [pyHashable] at h
  case str s' =>
    cases hl : dictLookup HOMEWORK_VERDICTS s' <;> simp [hl] at h
    exact ⟨s', rfl, by rw [hl, h]⟩

theorem verdict_keys {s t : String}
    (h : dictLookup HOMEWORK_VERDICTS s = Option.some t) :
    (s = "approved" ∧ t = "Работа проверена: ревьюеру всё понравилось. Ура!") ∨
    (s = "reviewing" ∧ t = "Работа взята на проверку ревьюером.") ∨
    (s = "rejected" ∧ t = "Работа проверена: у ревьюера есть замечания.") := by
  simp only [HOMEWORK_VERDICTS, dictLookup] at h
  split at h
  · rename_i h1
    exact Or.inl ⟨h1.symm, by injection h with h2; exact h2.symm⟩
  split at h
  · rename_i h1
    exact Or.inr (Or.inl ⟨h1.symm, by injection h with h2; exact h2.symm⟩)
  split at h
  · rename_i h1
    exact Or.inr (Or.inr ⟨h1.symm, by injection h with h2; exact h2.symm⟩)
  exact absurd h (by simp [dictLookup])

theorem check_response_ok_shape {r : PyVal} {s : String}
    (h : check_response r = .ok s) :
    ∃ es first rest fs t,
      r = PyVal.dict es ∧
      dictLookup es "homeworks" = Option.some (PyVal.list (first :: rest)) ∧
      first = PyVal.dict fs ∧
      dictLookup fs "status" = Option.some (PyVal.str s) ∧
      dictLookup HOMEWORK_VERDICTS s = Option.some t := by
  unfold check_response at h
  split at h
  · cases h
  rename_i hcond
  split at h
  · cases h
  rename_i homeworks hget
  split at h
  · cases h
  rename_i hlist
  split at h
  · cases h
  rename_i first hidx
  split at h
  · cases h
  rename_i status hgets
  split at h
  · cases h
  · rename_i s' hvck
    injection h with hss
    subst hss
    obtain ⟨es, hr, hlk⟩ := pyGetItemStr_ok hget
    obtain ⟨hstat, t, hvt⟩ := verdictsContainsKey_ok_some hvck
    subst hstat
    have hxs : ∃ xs, homeworks = PyVal.list xs := by
      refine (isList_iff _).1 ?_
      revert hlist
      cases homeworks.isList <;> simp
    obtain ⟨xs, hxs⟩ := hxs
    subst hxs
    obtain ⟨rest, hrest⟩ := pyIndexZero_list_ok hidx
    subst hrest
    obtain ⟨fs, hfst, hsl⟩ := pyGet_ok hgets
    cases hsl with
    | inl hsome => exact ⟨es, first, rest, fs, t, hr, hlk, hfst, hsome, hvt⟩
    | inr hnone => cases hnone.2
  · cases h

theorem check_response_dict_ok {es fs : List (String × PyVal)}
    {rest : List PyVal} {s t : String}
    (hlk : dictLookup es "homeworks" =
      Option.some (PyVal.list (PyVal.dict fs :: rest)))
    (hst : dictLookup fs "status" = Option.some (PyVal.str s))
    (hvt : dictLookup HOMEWORK_VERDICTS s = Option.some t) :
    check_response (PyVal.dict es) = .ok s := by
  unfold check_response
  simp [PyVal.isDict, hasKey, hlk, pyGetItemStr, PyVal.isList, pyIndexZero,
    pyGet, hst, verdictsContainsKey_str, hvt]

theorem parse_status_ok {fs : List (String × PyVal)} {v : PyVal} {s t : String}
    (hname : dictLookup fs "homework_name" = Option.some v)
    (hst : dictLookup fs "status" = Option.some (PyVal.str s))
    (hvt : dictLookup HOMEWORK_VERDICTS s = Option.some t) :
    parse_status (PyVal.dict fs) =
      .ok ("Изменился статус проверки работы \"" ++ pyStr v ++ "\". " ++ t) := by
  have hs_unknown : s ≠ "unknown" := by
    rcases verdict_keys hvt with ⟨h1, _⟩ | ⟨h1, _⟩ | ⟨h1, _⟩ <;> simp [h1]
  unfold parse_status
  simp [pyContainsStr, hname, pyGetItemStr, hst, beq_iff_eq, hs_unknown,
    verdictsGetItem, pyHashable, hvt, verdictsContainsKey_str]

theorem parseFirst_ok {es fs : List (String × PyVal)} {rest : List PyVal}
    {v : PyVal} {s t : String}
    (hlk : dictLookup es "homeworks" =
      Option.some (PyVal.list (PyVal.dict fs :: rest)))
    (hname : dictLookup fs "homework_name" = Option.some v)
    (hst : dictLookup fs "status" = Option.some (PyVal.str s))
    (hvt : dictLookup HOMEWORK_VERDICTS s = Option.some t) :
    parseFirst (PyVal.dict es) =
      .ok ("Изменился статус проверки работы \"" ++ pyStr v ++ "\". " ++ t) := by
  unfold parseFirst
  simp [pyGetItemStr, hlk, pyIndexZero, parse_status_ok hname hst hvt]

@[simp]
theorem requestedTimestamps_append (a b : List Event) :
    requestedTimestamps (a ++ b) =
      requestedTimestamps a ++ requestedTimestamps b := by
  induction a with
  | nil => rfl
  | cons e rest ih => cases e <;> simp [requestedTimestamps, ih]

@[simp]
theorem countSent_append (a b : List Event) :
    countSent (a ++ b) = countSent a + countSent b := by
  induction a with
  | nil => simp [countSent]
  | cons e rest ih =>
    cases e <;> simp [countSent, ih]
    omega

theorem tryBlock_requested (env : IterEnv) (st : LoopState) :
    requestedTimestamps (tryBlock env st).1 = [st.timestamp] ∧
    (tryBlock env st).2.1.timestamp = st.timestamp := by
  unfold tryBlock
  repeat' split
  all_goals simp [requestedTimestamps]

theorem iterate_requested (iterIdx : Nat) (env : IterEnv) (st : LoopState) :
    requestedTimestamps (iterate iterIdx env st).1 = [st.timestamp] ∧
    (iterate iterIdx env st).2.1.timestamp = st.timestamp := by
  obtain ⟨h1, h2⟩ := tryBlock_requested env st
  unfold iterate
  rcases htb : tryBlock env st with ⟨evs, st1, esc⟩
  rw [htb] at h1 h2
  simp only at h1 h2
  cases esc with
  | none => simp [requestedTimestamps, h1, h2]
  | some e =>
    simp only
    split
    · rcases hs : send_message env.tgExc
        ("В работе программы обнаружен сбой: " ++ errStr e) with _ | u
      · simp [requestedTimestamps, h1, h2]
      · simp [requestedTimestamps, h1, h2]
    · simp [requestedTimestamps, h1, h2]

theorem runFrom_cons_ok {iterIdx : Nat} {env : IterEnv} {st st1 st2 : LoopState}
    {rest : List IterEnv} {evs evs' : List Event} {esc : Option PyErr}
    (h : iterate iterIdx env st = (evs, st1, Option.none))
    (h2 : runFrom (iterIdx + 1) st1 rest = (evs', st2, esc)) :
    runFrom iterIdx st (env :: rest) = (evs ++ evs', st2, esc) := by
  unfold runFrom
  rw [h]
  simp only
  rw [h2]

theorem runFrom_cons_esc {iterIdx : Nat} {env : IterEnv} {st st1 : LoopState}
    {rest : List IterEnv} {evs : List Event} {e : PyErr}
    (h : iterate iterIdx env st = (evs, st1, Option.some e)) :
    runFrom iterIdx st (env :: rest) = (evs, st1, Option.some e) := by
  unfold runFrom
  rw [h]

theorem runFrom_requested (envs : List IterEnv) (iterIdx : Nat) (st : LoopState) :
    (∀ ts ∈ requestedTimestamps (runFrom iterIdx st envs).1, ts = st.timestamp) ∧
    (runFrom iterIdx st envs).2.1.timestamp = st.timestamp := by
  induction envs generalizing iterIdx st with
  | nil => simp [runFrom, requestedTimestamps]
  | cons env rest ih =>
    obtain ⟨h1, h2⟩ := iterate_requested iterIdx env st
    rcases hit : iterate iterIdx env st with ⟨evs, st1, esc⟩
    rw [hit] at h1 h2
    simp only at h1 h2
    cases esc with
    | none =>
      obtain ⟨ih1, ih2⟩ := ih (iterIdx + 1) st1
      rcases hrf : runFrom (iterIdx + 1) st1 rest with ⟨evs', st2, esc'⟩
      rw [hrf] at ih1 ih2
      simp only at ih1 ih2
      rw [runFrom_cons_ok hit hrf]
      constructor
      · intro ts hts
        simp only [requestedTimestamps_append, List.mem_append, h1] at hts
        rcases hts with hts | hts
        · simpa using hts
        · exact (ih1 ts hts).trans h2
      · simpa using ih2.trans h2
    | some e =>
      rw [runFrom_cons_esc hit]
      constructor
      · intro ts hts
        rw [h1] at hts
        simpa using hts
      · simpa using h2

theorem pyContainsStr_error {v : PyVal} {k : String} {e : PyErr}
    (h : pyContainsStr v k = .error e) : ∃ m, e = .typeError m := by
  cases v <;> simp [pyContainsStr] at h
  all_goals exact ⟨_, h.symm⟩

theorem pyGetItemStr_error {v : PyVal} {k : String} {e : PyErr}
    (h : pyGetItemStr v k = .error e) :
    (∃ m, e = .typeError m) ∨ (∃ kv, e = .keyError kv) := by
  cases v <;> simp only [pyGetItemStr] at h
  case dict es =>
    cases hl : dictLookup es k <;> simp [hl] at h
    exact Or.inr ⟨_, h.symm⟩
  all_goals exact Or.inl ⟨_, by injection h with h'; rw [h']⟩

theorem verdictsGetItem_error {v : PyVal} {e : PyErr}
    (h : verdictsGetItem v = .error e) :
    (∃ m, e = .typeError m) ∨ (∃ kv, e = .keyError kv) := by
  cases v with
  | str s =>
    unfold verdictsGetItem at h
    simp only [pyHashable, if_true] at h
    cases hl : dictLookup HOMEWORK_VERDICTS s <;> rw [hl] at h <;> simp at h
    exact Or.inr ⟨_, h.symm⟩
  | int n =>
    unfold verdictsGetItem at h
    simp only [pyHashable, if_true] at h
    simp at h
    exact Or.inr ⟨_, h.symm⟩
  | bool b =>
    unfold verdictsGetItem at h
    simp only [pyHashable, if_true] at h
    simp at h
    exact Or.inr ⟨_, h.symm⟩
  | none =>
    unfold verdictsGetItem at h
    simp only [pyHashable, if_true] at h
    simp at h
    exact Or.inr ⟨_, h.symm⟩
  | list xs =>
    unfold verdictsGetItem at h
    rw [if_neg (by simp [pyHashable])] at h
    exact Or.inl ⟨_, by injection h with h'; rw [h']⟩
  | dict es =>
    unfold verdictsGetItem at h
    rw [if_neg (by simp [pyHashable])] at h
    exact Or.inl ⟨_, by injection h with h'; rw [h']⟩

theorem verdictsContainsKey_error {v : PyVal} {e : PyErr}
    (h : verdictsContainsKey v = .error e) : ∃ m, e = .typeError m := by
  cases v with
  | str s =>
    unfold verdictsContainsKey at h
    simp only [pyHashable, if_true] at h
    cases hl : dictLookup HOMEWORK_VERDICTS s <;> rw [hl] at h <;> simp at h
  | int n =>
    unfold verdictsContainsKey at h
    simp only [pyHashable, if_true] at h
    simp at h
  | bool b =>
    unfold verdictsContainsKey at h
    simp only [pyHashable, if_true] at h
    simp at h
  | none =>
    unfold verdictsContainsKey at h
    simp only [pyHashable, if_true] at h
    simp at h
  | list xs =>
    unfold verdictsContainsKey at h
    rw [if_neg (by simp [pyHashable])] at h
    exact ⟨_, by injection h with h'; rw [h']⟩
  | dict es =>
    unfold verdictsContainsKey at h
    rw [if_neg (by simp [pyHashable])] at h
    exact ⟨_, by injection h with h'; rw [h']⟩

/-- C1: the claim is refuted by running the loop.  Scenario D (HTTP 503
on two consecutive iterations, hence two `ApiRequestError`s with the
identical message) delivers TWO failure notifications, not one; the same
happens for two identical builtin `TypeError` failures (a 200 reply whose
body is a JSON array twice).  The comparison `err_message != error`
compares a freshly raised exception object with a string or an older
exception object, and no exception class involved defines `__eq__`, so
the comparison is object identity and never suppresses a report. -/
theorem C1_dedup_two_notifications :
    (mainLoop 0 [⟨.reply 503 PyVal.none, Option.none, Option.none⟩,
                 ⟨.reply 503 PyVal.none, Option.none, Option.none⟩]).1 =
      [.requested (-2592000),
       .sent ("В работе программы обнаружен сбой: Эндпоинт недоступен: " ++ ENDPOINT),
       .slept,
       .requested (-2592000),
       .sent ("В работе программы обнаружен сбой: Эндпоинт недоступен: " ++ ENDPOINT),
       .slept] ∧
    countSent (mainLoop 0 [⟨.reply 503 PyVal.none, Option.none, Option.none⟩,
                           ⟨.reply 503 PyVal.none, Option.none, Option.none⟩]).1 = 2 ∧
    countSent (mainLoop 0 [⟨.reply 200 (PyVal.list []), Option.none, Option.none⟩,
                           ⟨.reply 200 (PyVal.list []), Option.none, Option.none⟩]).1 = 2 := by
  refine ⟨rfl, rfl, rfl⟩

/-- C3: `check_response` validates with ordered checks, each failing with
its own `TypeError`: a non-mapping or a missing "homeworks" key fails
with the collection-key-not-found message; a non-list value at the key
fails with the not-a-list message; a first element whose `status` (read
with `.get`, so `None` when absent) is not a key of `HOMEWORK_VERDICTS`
fails with the undocumented-status message naming that status; when all
checks pass, the returned value is the status string of the first
element, not the whole record. -/
theorem C3_check_response_ordered_checks :
    (∀ response : PyVal,
      ¬ (response.isDict = true ∧ hasKey response "homeworks" = true) →
      check_response response =
        .error (.typeError "Словарь в ответе API c домашними работами не найден")) ∧
    (∀ es hw, dictLookup es "homeworks" = Option.some hw → hw.isList = false →
      check_response (PyVal.dict es) =
        .error (.typeError "По ключу \x27homeworks\x27 не возвращается список")) ∧
    (∀ es first rest status,
      dictLookup es "homeworks" = Option.some (PyVal.list (first :: rest)) →
      pyGet first "status" = .ok status →
      verdictsContainsKey status = .ok Option.none →
      check_response (PyVal.dict es) =
        .error (.typeError ("Ошибка: недокументированный статус: " ++ pyStr status))) ∧
    (∀ es first rest status s,
      dictLookup es "homeworks" = Option.some (PyVal.list (first :: rest)) →
      pyGet first "status" = .ok status →
      verdictsContainsKey status = .ok (Option.some s) →
      check_response (PyVal.dict es) = .ok s) := by
  refine ⟨?_, ?_, ?_, ?_⟩
  · intro response hr
    have hb : (response.isDict && hasKey response "homeworks") = false := by
      cases hd : response.isDict <;> cases hk : hasKey response "homeworks" <;>
        simp_all
    unfold check_response
    simp [hb]
  · intro es hw hlk hnl
    unfold check_response
    simp [PyVal.isDict, hasKey, hlk, pyGetItemStr, hnl]
  · intro es first rest status hlk hget hvck
    unfold check_response
    simp [PyVal.isDict, hasKey, hlk, pyGetItemStr, PyVal.isList, pyIndexZero,
      hget, hvck]
  · intro es first rest status s hlk hget hvck
    unfold check_response
    simp [PyVal.isDict, hasKey, hlk, pyGetItemStr, PyVal.isList, pyIndexZero,
      hget, hvck]

/-- C3 witness: the four cases of the theorem at concrete inputs — a
non-mapping response, a non-list "homeworks" value, an undocumented
status, and a documented one whose status string is returned. -/
theorem C3_check_response_ordered_checks_witness :
    check_response (PyVal.list []) =
      .error (.typeError "Словарь в ответе API c домашними работами не найден") ∧
    check_response (PyVal.dict [("homeworks", PyVal.str "x")]) =
      .error (.typeError "По ключу \x27homeworks\x27 не возвращается список") ∧
    check_response (PyVal.dict [("homeworks",
        PyVal.list [PyVal.dict [("status", PyVal.str "archived")]])]) =
      .error (.typeError "Ошибка: недокументированный статус: archived") ∧
    check_response (PyVal.dict [("homeworks",
        PyVal.list [PyVal.dict [("homework_name", PyVal.str "hw1"),
                                ("status", PyVal.str "reviewing")]])]) =
      .ok "reviewing" :=
  ⟨C3_check_response_ordered_checks.1 (PyVal.list []) (by simp [PyVal.isDict]),
   C3_check_response_ordered_checks.2.1 [("homeworks", PyVal.str "x")]
     (PyVal.str "x") rfl rfl,
   C3_check_response_ordered_checks.2.2.1
     [("homeworks", PyVal.list [PyVal.dict [("status", PyVal.str "archived")]])]
     (PyVal.dict [("status", PyVal.str "archived")]) []
     (PyVal.str "archived") rfl rfl rfl,
   C3_check_response_ordered_checks.2.2.2
     [("homeworks", PyVal.list [PyVal.dict [("homework_name", PyVal.str "hw1"),
                                            ("status", PyVal.str "reviewing")]])]
     (PyVal.dict [("homework_name", PyVal.str "hw1"),
                  ("status", PyVal.str "reviewing")]) []
     (PyVal.str "reviewing") "reviewing" rfl rfl rfl⟩

/-- C4: a mapping response whose "homeworks" key holds an empty list
makes `check_response` raise `IndexError` at the index-0 access; it does
not return. -/
theorem C4_empty_homeworks_index_error (es : List (String × PyVal))
    (h : dictLookup es "homeworks" = Option.some (PyVal.list [])) :
    check_response (PyVal.dict es) =
      .error (.indexError "list index out of range") := by
  unfold check_response
  simp [PyVal.isDict, hasKey, h, pyGetItemStr, PyVal.isList, pyIndexZero]

/-- C4 witness: the empty-collection failure at a concrete response. -/
theorem C4_empty_homeworks_index_error_witness :
    check_response (PyVal.dict [("homeworks", PyVal.list [])]) =
      .error (.indexError "list index out of range") :=
  C4_empty_homeworks_index_error _ rfl

/-- C8: the poll cursor is derived once, at process start, as
now − 30 days (`TIME_INTERVAL` = 2592000 seconds) and is never advanced:
every HTTP request of a run carries exactly that value, and the cursor in
the final state still equals it, however many iterations succeeded or
failed. -/
theorem C8_fixed_cursor (now : Int) (envs : List IterEnv) :
    TIME_INTERVAL = 2592000 ∧
    (initState now).timestamp = now - TIME_INTERVAL ∧
    (∀ ts ∈ requestedTimestamps (mainLoop now envs).1, ts = now - TIME_INTERVAL) ∧
    (mainLoop now envs).2.1.timestamp = now - TIME_INTERVAL := by
  obtain ⟨h1, h2⟩ := runFrom_requested envs 0 (initState now)
  exact ⟨by norm_num [TIME_INTERVAL], rfl, fun ts hts => h1 ts hts, h2⟩

/-- C8 witness: a run with a failing and a succeeding iteration issues
all its requests with the fixed process-start cursor. -/
theorem C8_fixed_cursor_witness :
    requestedTimestamps (mainLoop 3000000
      [⟨.reply 503 PyVal.none, Option.none, Option.none⟩,
       ⟨.reply 503 PyVal.none, Option.none, Option.none⟩]).1 =
      [408000, 408000] ∧
    (408000 : Int) = 3000000 - TIME_INTERVAL ∧
    ∀ ts ∈ requestedTimestamps (mainLoop 3000000
      [⟨.reply 503 PyVal.none, Option.none, Option.none⟩,
       ⟨.reply 503 PyVal.none, Option.none, Option.none⟩]).1,
      ts = 3000000 - TIME_INTERVAL :=
  ⟨rfl, rfl, (C8_fixed_cursor 3000000 _).2.2.1⟩


/-- C9: whenever `check_response` returns normally, the returned string
is a key of `HOMEWORK_VERDICTS`; consequently `parse_status`, applied as
in the loop to the first element of the same response, can only fail
with the missing-`homework_name` `KeyError` — the undocumented-status
branches of `parse_status` are unreachable after successful
validation. -/
theorem C9_validated_parse_only_name_error (response : PyVal) (s : String)
    (h : check_response response = .ok s) :
    (dictLookup HOMEWORK_VERDICTS s).isSome = true ∧
    ∀ e, parseFirst response = .error e →
      e = .keyError (.str "В ответе API отсутствует ключ \x27homework_name\x27") := by
  obtain ⟨es, first, rest, fs, t, hr, hlk, hfst, hst, hvt⟩ :=
    check_response_ok_shape h
  subst hr
  subst hfst
  refine ⟨by rw [hvt]; rfl, ?_⟩
  intro e he
  unfold parseFirst at he
  rw [pyGetItemStr_dict hlk] at he
  simp only [pyIndexZero] at he
  cases hname : dictLookup fs "homework_name" with
  | some v => rw [parse_status_ok hname hst hvt] at he; cases he
  | none =>
    unfold parse_status at he
    rw [show pyContainsStr (PyVal.dict fs) "homework_name" = .ok false by
      simp [pyContainsStr, hname]] at he
    simp at he
    exact he.symm

/-- C9 witness: a validated response whose first element lacks the name
field; the only parse failure is the missing-name `KeyError`. -/
theorem C9_validated_parse_only_name_error_witness :
    (dictLookup HOMEWORK_VERDICTS "approved").isSome = true ∧
    PyErr.keyError (.str "В ответе API отсутствует ключ \x27homework_name\x27") =
      .keyError (.str "В ответе API отсутствует ключ \x27homework_name\x27") :=
  ⟨(C9_validated_parse_only_name_error
      (PyVal.dict [("homeworks",
        PyVal.list [PyVal.dict [("status", PyVal.str "approved")]])])
      "approved" rfl).1,
   (C9_validated_parse_only_name_error
      (PyVal.dict [("homeworks",
        PyVal.list [PyVal.dict [("status", PyVal.str "approved")]])])
      "approved" rfl).2 _ rfl⟩

/-- C6: an iteration whose fetch and validation succeed with an
unchanged status sends nothing: it logs the no-change message, sleeps,
raises nothing, and leaves the whole loop state (last-known status and
last reported error) untouched. -/
theorem C6_unchanged_status_silent (iterIdx : Nat) (env : IterEnv)
    (st : LoopState) (response : PyVal)
    (hhttp : get_api_answer env.http = .ok response)
    (hchk : check_response response = .ok st.status) :
    iterate iterIdx env st =
      ([.requested st.timestamp, .logNoChange, .slept], st, Option.none) ∧
    countSent (iterate iterIdx env st).1 = 0 := by
  have htb : tryBlock env st =
      ([.requested st.timestamp, .logNoChange], st, Option.none) := by
    simp [tryBlock, hhttp, hchk]
  have hit : iterate iterIdx env st =
      ([.requested st.timestamp, .logNoChange, .slept], st, Option.none) := by
    unfold iterate
    rw [htb]
    rfl
  refine ⟨hit, ?_⟩
  rw [hit]
  rfl

/-- C6 witness: the same payload arriving again produces no message and
no state change. -/
theorem C6_unchanged_status_silent_witness :
    iterate 7 ⟨.reply 200 (PyVal.dict [("homeworks",
        PyVal.list [PyVal.dict [("homework_name", PyVal.str "hw1"),
                                ("status", PyVal.str "reviewing")]])]),
      Option.none, Option.none⟩
      ⟨-5, "reviewing", Option.none⟩ =
      ([.requested (-5), .logNoChange, .slept],
       ⟨-5, "reviewing", Option.none⟩, Option.none) ∧
    countSent (iterate 7 ⟨.reply 200 (PyVal.dict [("homeworks",
        PyVal.list [PyVal.dict [("homework_name", PyVal.str "hw1"),
                                ("status", PyVal.str "reviewing")]])]),
      Option.none, Option.none⟩
      ⟨-5, "reviewing", Option.none⟩).1 = 0 :=
  C6_unchanged_status_silent 7 _ _ _ rfl rfl

/-- C5: an iteration whose fetch and validation succeed with a changed
status delivers exactly one notification, formatted from the first
element of the original response (the resource name together with the
verdict text of the new status), updates the last-known status to the
new value, and raises nothing. -/
theorem C5_changed_status_notifies (iterIdx : Nat) (env : IterEnv)
    (st : LoopState) (es fs : List (String × PyVal)) (rest : List PyVal)
    (g : String) (v : PyVal)
    (hhttp : get_api_answer env.http = .ok (PyVal.dict es))
    (hchk : check_response (PyVal.dict es) = .ok g)
    (hlk : dictLookup es "homeworks" =
      Option.some (PyVal.list (PyVal.dict fs :: rest)))
    (hname : dictLookup fs "homework_name" = Option.some v)
    (hne : st.status ≠ g)
    (htg : env.tgTry = Option.none) :
    ∃ t, dictLookup HOMEWORK_VERDICTS g = Option.some t ∧
      iterate iterIdx env st =
        ([.requested st.timestamp,
          .sent ("Изменился статус проверки работы \"" ++ pyStr v ++ "\". " ++ t),
          .slept],
         { st with status := g }, Option.none) ∧
      countSent (iterate iterIdx env st).1 = 1 := by
  obtain ⟨es', first', rest', fs', t, hr', hlk', hfst', hst', hvt'⟩ :=
    check_response_ok_shape hchk
  injection hr' with hes
  subst hes
  rw [hlk] at hlk'
  injection hlk' with hlist
  injection hlist with hcons
  injection hcons with hfirst hrest
  rw [← hfirst] at hfst'
  injection hfst' with hfs
  subst hfs
  have hp := parseFirst_ok hlk hname hst' hvt'
  have hbe : (st.status == g) = false := by simp [hne]
  have htb : tryBlock env st =
      ([.requested st.timestamp,
        .sent ("Изменился статус проверки работы \"" ++ pyStr v ++ "\". " ++ t)],
       { st with status := g }, Option.none) := by
    simp [tryBlock, hhttp, hchk, hbe, hp, htg, send_message]
  have hit : iterate iterIdx env st =
      ([.requested st.timestamp,
        .sent ("Изменился статус проверки работы \"" ++ pyStr v ++ "\". " ++ t),
        .slept],
       { st with status := g }, Option.none) := by
    unfold iterate
    rw [htb]
    rfl
  exact ⟨t, hvt', hit, by rw [hit]; rfl⟩

/-- C5 witness: Scenario A's payload at a state with a different
last-known status. -/
theorem C5_changed_status_notifies_witness :
    ∃ t, dictLookup HOMEWORK_VERDICTS "reviewing" = Option.some t ∧
      iterate 0 ⟨.reply 200 (PyVal.dict [("homeworks",
          PyVal.list [PyVal.dict [("homework_name", PyVal.str "hw1"),
                                  ("status", PyVal.str "reviewing")]])]),
        Option.none, Option.none⟩ ⟨-5, "", Option.none⟩ =
        ([.requested (-5),
          .sent ("Изменился статус проверки работы \"" ++
            pyStr (PyVal.str "hw1") ++ "\". " ++ t),
          .slept],
         ⟨-5, "reviewing", Option.none⟩, Option.none) ∧
      countSent (iterate 0 ⟨.reply 200 (PyVal.dict [("homeworks",
          PyVal.list [PyVal.dict [("homework_name", PyVal.str "hw1"),
                                  ("status", PyVal.str "reviewing")]])]),
        Option.none, Option.none⟩ ⟨-5, "", Option.none⟩).1 = 1 :=
  C5_changed_status_notifies 0 _ ⟨-5, "", Option.none⟩
    [("homeworks", PyVal.list [PyVal.dict [("homework_name", PyVal.str "hw1"),
                                           ("status", PyVal.str "reviewing")]])]
    [("homework_name", PyVal.str "hw1"), ("status", PyVal.str "reviewing")]
    [] "reviewing" (PyVal.str "hw1") rfl rfl rfl rfl (by decide) rfl


/-- C7: the formatter returns the fixed template applied to the record
name and the three-entry verdict table; and on iteration 1 of Scenario A
(previous status unset) exactly one notification is sent, whose text is
the template applied to "hw1" and the reviewing verdict. -/
theorem C7_format_template_scenario_A :
    (∀ fs v s t,
      dictLookup fs "homework_name" = Option.some v →
      dictLookup fs "status" = Option.some (PyVal.str s) →
      dictLookup HOMEWORK_VERDICTS s = Option.some t →
      parse_status (PyVal.dict fs) =
        .ok ("Изменился статус проверки работы \"" ++ pyStr v ++ "\". " ++ t)) ∧
    (∀ now : Int,
      mainLoop now [⟨.reply 200 (PyVal.dict [("homeworks",
          PyVal.list [PyVal.dict [("homework_name", PyVal.str "hw1"),
                                  ("status", PyVal.str "reviewing")]])]),
        Option.none, Option.none⟩] =
      ([.requested (now - TIME_INTERVAL),
        .sent "Изменился статус проверки работы \"hw1\". Работа взята на проверку ревьюером.",
        .slept],
       { timestamp := now - TIME_INTERVAL, status := "reviewing",
         err_message := Option.none }, Option.none)) := by
  exact ⟨fun fs v s t hname hst hvt => parse_status_ok hname hst hvt,
         fun now => rfl⟩

/-- C7 witness: the template at a concrete approved record, and
Scenario A run from process-start time 0. -/
theorem C7_format_template_scenario_A_witness :
    parse_status (PyVal.dict [("homework_name", PyVal.str "hw1"),
                              ("status", PyVal.str "approved")]) =
      .ok ("Изменился статус проверки работы \"" ++ pyStr (PyVal.str "hw1") ++
        "\". " ++ "Работа проверена: ревьюеру всё понравилось. Ура!") ∧
    mainLoop 0 [⟨.reply 200 (PyVal.dict [("homeworks",
        PyVal.list [PyVal.dict [("homework_name", PyVal.str "hw1"),
                                ("status", PyVal.str "reviewing")]])]),
      Option.none, Option.none⟩] =
      ([.requested (0 - TIME_INTERVAL),
        .sent "Изменился статус проверки работы \"hw1\". Работа взята на проверку ревьюером.",
        .slept],
       { timestamp := 0 - TIME_INTERVAL, status := "reviewing",
         err_message := Option.none }, Option.none) :=
  ⟨C7_format_template_scenario_A.1
     [("homework_name", PyVal.str "hw1"), ("status", PyVal.str "approved")]
     (PyVal.str "hw1") "approved"
     "Работа проверена: ревьюеру всё понравилось. Ура!" rfl rfl rfl,
   C7_format_template_scenario_A.2 0⟩

/-- C2 (amended): when the try body of an iteration raises and the
failure-report delivery in the except clause itself raises
`SendMessageError`, that failure escapes the iteration after the
unconditional finally sleep has run — and then escapes the loop: the
run ends with that error and no later scripted iteration executes
(whatever the rest of the script holds). -/
theorem C2_send_failure_escapes (iterIdx : Nat) (env : IterEnv)
    (st st1 : LoopState) (evs : List Event) (e : PyErr) (m : String)
    (rest : List IterEnv)
    (htb : tryBlock env st = (evs, st1, Option.some e))
    (hne : errNe st1.err_message (iterIdx, e) = true)
    (htg : env.tgExc = Option.some m) :
    runFrom iterIdx st (env :: rest) =
      (evs ++ [.slept],
       { st1 with err_message := Option.some (iterIdx, e) },
       Option.some (.sendMessageError ("Ошибка отправки: " ++ m))) := by
  have hit : iterate iterIdx env st =
      (evs ++ [.slept],
       { st1 with err_message := Option.some (iterIdx, e) },
       Option.some (.sendMessageError ("Ошибка отправки: " ++ m))) := by
    unfold iterate
    rw [htb]
    simp [hne, htg, send_message]
  exact runFrom_cons_esc hit

/-- C2 witness: a 503 fetch failure whose report delivery fails; the run
sleeps, then ends with the `SendMessageError`. -/
theorem C2_send_failure_escapes_witness :
    runFrom 0 (initState 0)
      [⟨.reply 503 PyVal.none, Option.none, Option.some "x"⟩] =
      ([.requested (0 - TIME_INTERVAL), .slept],
       { timestamp := 0 - TIME_INTERVAL, status := "",
         err_message := Option.some (0,
           .apiRequestError ("Эндпоинт недоступен: " ++ ENDPOINT)) },
       Option.some (.sendMessageError "Ошибка отправки: x")) :=
  C2_send_failure_escapes 0 _ (initState 0) (initState 0)
    [.requested (0 - TIME_INTERVAL)]
    (.apiRequestError ("Эндпоинт недоступен: " ++ ENDPOINT)) "x" [] rfl rfl rfl

/-- C2 counterexample to the claim as stated: iteration 1 fails with
HTTP 503 and the failure-report delivery also fails; a second iteration
is scripted, yet the run ends after the first iteration with the
unhandled `SendMessageError` — the sleep ran, but no second request is
ever issued: the loop (and the process) terminates instead of
proceeding to the next iteration normally. -/
theorem C2_counterexample_process_terminates :
    (mainLoop 0 [⟨.reply 503 PyVal.none, Option.none, Option.some "boom"⟩,
                 ⟨.reply 503 PyVal.none, Option.none, Option.none⟩]).2.2 =
      Option.some (.sendMessageError "Ошибка отправки: boom") ∧
    (mainLoop 0 [⟨.reply 503 PyVal.none, Option.none, Option.some "boom"⟩,
                 ⟨.reply 503 PyVal.none, Option.none, Option.none⟩]).1 =
      [.requested (-2592000), .slept] :=
  ⟨rfl, rfl⟩

/-- C10: the `ValueError` branch of `parse_status` is unreachable for
every input; moreover a record carrying the sentinel "unknown" status
raises `HomeWorkStatusUnknown`, a record whose present status string is
outside the verdict table raises the `KeyError` of the verdict-table
subscript, and a record lacking the status key raises the `KeyError` of
the record subscript — in every case before the
`status not in HOMEWORK_VERDICTS` check can run. -/
theorem C10_value_error_unreachable :
    (∀ homework msg, parse_status homework ≠ .error (.valueError msg)) ∧
    (∀ fs w, dictLookup fs "homework_name" = Option.some w →
      dictLookup fs "status" = Option.some (PyVal.str "unknown") →
      parse_status (PyVal.dict fs) =
        .error (.homeWorkStatusUnknown "Статус домашней работы не задокументирован")) ∧
    (∀ fs w s, dictLookup fs "homework_name" = Option.some w →
      dictLookup fs "status" = Option.some (PyVal.str s) → s ≠ "unknown" →
      dictLookup HOMEWORK_VERDICTS s = Option.none →
      parse_status (PyVal.dict fs) = .error (.keyError (.str s))) ∧
    (∀ fs w, dictLookup fs "homework_name" = Option.some w →
      dictLookup fs "status" = Option.none →
      parse_status (PyVal.dict fs) = .error (.keyError (.str "status"))) := by
  refine ⟨?_, ?_, ?_, ?_⟩
  · intro homework msg hcontra
    unfold parse_status at hcontra
    split at hcontra
    · rename_i e hpc
      obtain ⟨m, hm⟩ := pyContainsStr_error hpc
      subst hm
      injection hcontra with hx
      cases hx
    · split at hcontra
      · injection hcontra with hx
        cases hx
      · split at hcontra
        · rename_i e hpg
          rcases pyGetItemStr_error hpg with ⟨m, hm⟩ | ⟨kv, hm⟩ <;> subst hm <;>
            injection hcontra with hx <;> cases hx
        · split at hcontra
          · injection hcontra with hx
            cases hx
          · split at hcontra
            · rename_i e hvg
              rcases verdictsGetItem_error hvg with ⟨m, hm⟩ | ⟨kv, hm⟩ <;>
                subst hm <;> injection hcontra with hx <;> cases hx
            · split at hcontra
              · rename_i e hvc
                obtain ⟨m, hm⟩ := verdictsContainsKey_error hvc
                subst hm
                injection hcontra with hx
                cases hx
              · rename_i scr1 verdictVal hvg scr2 mem2 hvc
                split at hcontra
                · rename_i hnone
                  obtain ⟨s, hs, hlk⟩ := verdictsGetItem_ok hvg
                  subst hs
                  rw [verdictsContainsKey_str] at hvc
                  rw [hlk] at hvc
                  injection hvc with hvc2
                  rw [← hvc2] at hnone
                  simp at hnone
                · split at hcontra
                  · injection hcontra with hx
                    rcases pyGetItemStr_error (by assumption) with ⟨m, hm⟩ | ⟨kv, hm⟩ <;>
                      rw [hm] at hx <;> cases hx
                  · cases hcontra
  · intro fs w hname hst
    unfold parse_status
    simp [pyContainsStr, hname, pyGetItemStr, hst]
  · intro fs w s hname hst hsu hvn
    unfold parse_status
    simp [pyContainsStr, hname, pyGetItemStr, hst, beq_iff_eq, hsu,
      verdictsGetItem, pyHashable, hvn]
  · intro fs w hname hst
    unfold parse_status
    simp [pyContainsStr, hname, pyGetItemStr, hst]

/-- C10 witness: the three error shapes at concrete records, and the
impossibility of the `ValueError` at one of them. -/
theorem C10_value_error_unreachable_witness :
    parse_status (PyVal.dict [("homework_name", PyVal.str "hw1")]) ≠
      .error (.valueError "Неидентифицированный статус: archived") ∧
    parse_status (PyVal.dict [("homework_name", PyVal.str "hw1"),
        ("status", PyVal.str "unknown")]) =
      .error (.homeWorkStatusUnknown "Статус домашней работы не задокументирован") ∧
    parse_status (PyVal.dict [("homework_name", PyVal.str "hw1"),
        ("status", PyVal.str "archived")]) =
      .error (.keyError (.str "archived")) ∧
    parse_status (PyVal.dict [("homework_name", PyVal.str "hw1")]) =
      .error (.keyError (.str "status")) :=
  ⟨C10_value_error_unreachable.1 _ _,
   C10_value_error_unreachable.2.1
     [("homework_name", PyVal.str "hw1"), ("status", PyVal.str "unknown")]
     (PyVal.str "hw1") rfl rfl,
   C10_value_error_unreachable.2.2.1
     [("homework_name", PyVal.str "hw1"), ("status", PyVal.str "archived")]
     (PyVal.str "hw1") "archived" rfl rfl (by decide) rfl,
   C10_value_error_unreachable.2.2.2
     [("homework_name", PyVal.str "hw1")] (PyVal.str "hw1") rfl rfl⟩

end HomeworkBot
